import Mathlib

/-!
Verification of the query-construction and result-pagination/aggregation
pipeline of the streamlit-forum package (streamlit_forum/__init__.py, with a
near-identical variant in streamlit_discourse/__init__.py).

Modelling conventions, kept close to the Python source:

* A forum topic row is the record `Topic` with exactly the nine columns that
  `_get_search_results_as_table` projects onto.  The two timestamp columns are
  kept as opaque strings: `pd.to_datetime` is an injective re-coding of the
  column values and no property below depends on it.
* The upstream search endpoint is a function `Nat -> Except String (Option (List Topic))`
  from page numbers to the outcome of `_fetch("search.json", q=q, page=page).json()`:
  `Except.error e` models a raised exception (network failure, malformed JSON),
  `Except.ok none` models a JSON body without a "topics" key, and
  `Except.ok (some rows)` models a body with a "topics" array.
* The unbounded `while True` pagination loop of `_fetch_all_topic_pages` is
  embedded with explicit fuel; a result of `none` means the fuel ran out
  before the loop finished (i.e. it models divergence), `some r` means the
  loop finished with outcome `r`.
* Exceptions are threaded as `Except String`.  Two pandas behaviours that the
  source relies on are modelled explicitly:
  `pd.concat([])` raises `ValueError: No objects to concatenate`, and
  `pd.DataFrame([])` built from an empty "topics" array has no columns, so the
  subsequent `search_results["created_at"]` access in `_fetch_search` raises a
  `KeyError`.
* `DataFrame.head(n)` returns the first `n` rows for `n >= 0` and all rows
  except the last `|n|` rows for negative `n` (pandas semantics of `head`).
-/

/-- One forum topic row, with the nine columns selected by
`_get_search_results_as_table` (source lines 52-64).  Timestamps are kept as
strings, integer columns as `Int`. -/
structure Topic where
  title : String
  created_at : String
  last_posted_at : String
  id : Int
  posts_count : Int
  reply_count : Int
  highest_post_number : Int
  category_id : Int
  has_accepted_answer : Bool
  deriving DecidableEq, Repr

instance {e a : Type} [DecidableEq e] [DecidableEq a] : DecidableEq (Except e a) := fun x y =>
  match x, y with
  | Except.error u, Except.error v =>
    if h : u = v then isTrue (by rw [h]) else isFalse (fun hc => by cases hc; exact h rfl)
  | Except.error _, Except.ok _ => isFalse (fun hc => by cases hc)
  | Except.ok _, Except.error _ => isFalse (fun hc => by cases hc)
  | Except.ok u, Except.ok v =>
    if h : u = v then isTrue (by rw [h]) else isFalse (fun hc => by cases hc; exact h rfl)

/-- `_BASE_URL = "https://discuss.streamlit.io"` (source line 9). -/
def _BASE_URL : String := "https://discuss.streamlit.io"

/-- `_ALLOWED_SORTS` (source line 12). -/
def _ALLOWED_SORTS : List String := ["latest", "likes", "views", "latest_topic"]

/-- `_ALLOWED_STATUSES` (source lines 13-22). -/
def _ALLOWED_STATUSES : List String :=
  ["open", "closed", "public", "archived", "noreplies", "single_user", "solved", "unsolved"]

/-- `_fetch_search` (source lines 34-43) applied to the JSON body of one page.
`Except.error` in = exception from `_fetch`/`resp.json()` propagates out;
a body without a "topics" key returns `None` (here `Except.ok none`);
a body with an empty "topics" array yields `pd.DataFrame([])`, which has no
columns, so `search_results["created_at"]` raises a KeyError; otherwise the
rows are returned unchanged (the `pd.to_datetime` re-coding of the two
timestamp columns is value-preserving on our opaque-string model). -/
def _fetch_search (body : Except String (Option (List Topic))) :
    Except String (Option (List Topic)) :=
  match body with
  | Except.error e => Except.error e
  | Except.ok none => Except.ok none
  | Except.ok (some rows) =>
    if rows = [] then Except.error "KeyError: created_at" else Except.ok (some rows)

/-- The `while True` loop of `_fetch_all_topic_pages` (source lines 69-79),
with explicit fuel.  Starting at page number `page`, it calls `_fetch_search`
on each page in sequence, accumulating the returned batches in order, and
stops when a page returns `None`; an exception raised by `_fetch_search`
propagates.  `none` means the fuel was exhausted (models divergence). -/
def _fetch_all_topic_pages_loop (up : Nat → Except String (Option (List Topic))) :
    Nat → Nat → Option (Except String (List (List Topic)))
  | 0, _ => none
  | fuel + 1, page =>
    match _fetch_search (up page) with
    | Except.error e => some (Except.error e)
    | Except.ok none => some (Except.ok [])
    | Except.ok (some batch) =>
      match _fetch_all_topic_pages_loop up fuel (page + 1) with
      | none => none
      | some (Except.error e) => some (Except.error e)
      | some (Except.ok rest) => some (Except.ok (batch :: rest))

/-- `pd.concat(posts_list)` (source line 81): raises
`ValueError: No objects to concatenate` on an empty list of frames, otherwise
concatenates the frames' rows in order. -/
def pd_concat (frames : List (List Topic)) : Except String (List Topic) :=
  if frames = [] then Except.error "ValueError: No objects to concatenate"
  else Except.ok frames.flatten

/-- The seen-set recursion underlying `drop_duplicates(subset=["id"])` with the
default `keep="first"`: a row is kept iff its `id` column value has not
occurred in an earlier row. -/
def drop_duplicates_by_id_aux (seen : List Int) : List Topic → List Topic
  | [] => []
  | t :: ts =>
    if t.id ∈ seen then drop_duplicates_by_id_aux seen ts
    else t :: drop_duplicates_by_id_aux (t.id :: seen) ts

/-- `_get_search_results_as_table` (source lines 46-64): drop duplicate rows by
`id` keeping the first occurrence, re-parse the two timestamp columns (a no-op
on already-parsed columns), project onto the nine `Topic` columns (the
identity on our row record), and `reset_index(drop=True)` (no effect on row
order). -/
def _get_search_results_as_table (table : List Topic) : List Topic :=
  drop_duplicates_by_id_aux [] table

/-- `_fetch_all_topic_pages` (source lines 67-83): run the pagination loop from
page 0, then `pd.concat` the collected batches and shape them with
`_get_search_results_as_table`.  Exceptions propagate (they are caught by the
caller `_get_data`); `none` means the loop diverged (fuel ran out). -/
def _fetch_all_topic_pages (up : Nat → Except String (Option (List Topic)))
    (fuel : Nat) : Option (Except String (List Topic)) :=
  match _fetch_all_topic_pages_loop up fuel 0 with
  | none => none
  | some (Except.error e) => some (Except.error e)
  | some (Except.ok pages) =>
    match pd_concat pages with
    | Except.error e => Except.error e |> some
    | Except.ok posts => some (Except.ok (_get_search_results_as_table posts))

/-- The query-construction prelude of `_get_data` (source lines 86-104): start
from the exception type name; under `criteria == "narrow"` concatenate
`": " + str(str_exception)` directly; then append `" order:<sortby>"` when
`sortby` is in `_ALLOWED_SORTS` and `" status:<status>"` when `status` is in
`_ALLOWED_STATUSES`. -/
def build_query (etype str_exception criteria sortby status : String) : String :=
  let query := etype
  let query := if criteria = "narrow" then query ++ ": " ++ str_exception else query
  let query := if sortby ∈ _ALLOWED_SORTS then query ++ " order:" ++ sortby else query
  let query := if status ∈ _ALLOWED_STATUSES then query ++ " status:" ++ status else query
  query

/-- `DataFrame.head(n)` (source line 113, `result.head(top)`): the first `n`
rows for `n >= 0`, and all rows except the last `|n|` rows for negative `n`
(pandas semantics). -/
def pd_head (n : Int) (rows : List Topic) : List Topic :=
  if 0 ≤ n then rows.take n.toNat else rows.take (rows.length - n.natAbs)

/-- The message of the `st.error` call in `_get_data` (source lines 109-111). -/
def noTopicsFound : String :=
  "[streamlit-forum] No topics found. Try setting criteria to 'broad'"

/-- `_get_data` (source lines 86-115).  The upstream is a function of the
built query and the page number.  Outcome `none` models divergence of the
pagination loop; `some (Sum.inl m)` models the `st.error(m)` return taken when
`_fetch_all_topic_pages` raises; `some (Sum.inr rows)` models a normal return
of `result.head(top)`.  The `streamlit_discourse` variant `get_data` (its
source lines 206-232) builds the query and absorbs fetch failures
identically. -/
def _get_data (etype str_exception : String) (top : Int)
    (criteria sortby status : String)
    (up : String → Nat → Except String (Option (List Topic))) (fuel : Nat) :
    Option (Sum String (List Topic)) :=
  let query := build_query etype str_exception criteria sortby status
  match _fetch_all_topic_pages (up query) fuel with
  | none => none
  | some (Except.error _) => some (Sum.inl noTopicsFound)
  | some (Except.ok result) => some (Sum.inr (pd_head top result))

/-- `topic_url = _BASE_URL + "/t/" + str(topic_id)` (source line 122; the same
derivation appears at line 230 of the `streamlit_discourse` variant). -/
def topic_url (topic_id : Int) : String := _BASE_URL ++ "/t/" ++ toString topic_id

/-- The per-row body of the loop in `_format_result` (source lines 121-126):
a Markdown link to the topic's public URL, with a Solved badge appended when
`has_accepted_answer` is set. -/
def format_link (t : Topic) : String :=
  let u := "- [" ++ t.title ++ "](" ++ topic_url t.id ++ ")"
  if t.has_accepted_answer then u ++ " [✅ Solved]" else u

/-- `_format_result` (source lines 118-128). -/
def _format_result (result : List Topic) : String :=
  String.intercalate "\n" (result.map format_link)

/-- Default argument `top=5` of the public context manager `forum`
(source line 132). -/
def forum_default_top : Int := 5

/-- Default argument `criteria="broad"` of `forum` (source line 132). -/
def forum_default_criteria : String := "broad"

/-- Default argument `sortby="relevance"` of `forum` (source line 132). -/
def forum_default_sortby : String := "relevance"

/-- Default argument `status="any"` of `forum` (source line 132). -/
def forum_default_status : String := "any"

/-- An upstream endpoint serving a fixed finite list of pages: page `n` has a
"topics" array holding `pages[n]`, and every page past the end of the list
lacks the "topics" key.  No page raises. -/
def upstreamOf (pages : List (List Topic)) :
    Nat → Except String (Option (List Topic)) :=
  fun n => Except.ok pages[n]?

/-- The topic rows carried by one page outcome (empty for a missing "topics"
key or an exception); used to state what the pagination loop collects. -/
def pageData (r : Except String (Option (List Topic))) : List Topic :=
  match r with
  | Except.ok (some rows) => rows
  | _ => []

/-- A concrete topic row used in witnesses and counterexamples. -/
def exTopic (n : Int) : Topic :=
  ⟨"topic " ++ toString n, "2021-01-01T00:00:00Z", "2021-01-02T00:00:00Z",
    n, 3, 2, 3, 7, false⟩

/-- A second row with id 3 but different column values, so that keeping the
first occurrence is observable. -/
def exTopicB : Topic :=
  ⟨"duplicate of topic 3", "2021-02-01T00:00:00Z", "2021-02-02T00:00:00Z",
    3, 1, 0, 1, 7, true⟩

/-- The page sequence of the spec's worked example: page 0 has ids 1,2,3,
page 1 has ids 3,4, and page 2 (served by `upstreamOf`) lacks "topics". -/
def expages : List (List Topic) :=
  [[exTopic 1, exTopic 2, exTopic 3], [exTopicB, exTopic 4]]

/-- A concrete well-behaved upstream for exercising the pagination loop:
pages 0 and 1 carry one topic each, every later page lacks "topics". -/
def c2up : Nat → Except String (Option (List Topic)) :=
  fun n => if n < 2 then Except.ok (some [exTopic n]) else Except.ok none

/-- C4: with criteria "narrow", the built query starts with the clause
`<type_name>: <message>` verbatim (message concatenated after the literal
": ", unescaped), followed by the recognised sort and status clauses; the
spec's worked example evaluates to
"ZeroDivisionError: division by zero order:likes status:solved". -/
theorem c4_narrow_first_clause (etype msg sortby status : String) :
    build_query etype msg "narrow" sortby status =
        etype ++ ": " ++ msg ++
          (if sortby ∈ _ALLOWED_SORTS then " order:" ++ sortby else "") ++
          (if status ∈ _ALLOWED_STATUSES then " status:" ++ status else "") ∧
      build_query "ZeroDivisionError" "division by zero" "narrow" "likes" "solved" =
        "ZeroDivisionError: division by zero order:likes status:solved" := by
  constructor
  · simp only [build_query, if_pos rfl]
    by_cases hs : sortby ∈ _ALLOWED_SORTS <;> by_cases ht : status ∈ _ALLOWED_STATUSES <;>
      simp [hs, ht, String.append_assoc]
  · rfl

/-- C5: with any criteria other than "narrow" (including "broad" and
unrecognised values) the built query is the bare type name followed by the
recognised sort clause and then the recognised status clause; unrecognised
sort or status values append nothing; e.g. criteria "broad", sort "bogus",
status "open" on TypeError yields "TypeError status:open". -/
theorem c5_broad_query (etype msg criteria sortby status : String)
    (h : criteria ≠ "narrow") :
    build_query etype msg criteria sortby status =
        etype ++
          (if sortby ∈ _ALLOWED_SORTS then " order:" ++ sortby else "") ++
          (if status ∈ _ALLOWED_STATUSES then " status:" ++ status else "") ∧
      build_query "TypeError" msg "broad" "bogus" "open" = "TypeError status:open" := by
  constructor
  · simp only [build_query, if_neg h]
    by_cases hs : sortby ∈ _ALLOWED_SORTS <;> by_cases ht : status ∈ _ALLOWED_STATUSES <;>
      simp [hs, ht, String.append_assoc]
  · simp [build_query, _ALLOWED_SORTS, _ALLOWED_STATUSES]

/-- C5 witness: instantiating at criteria "broad" (which differs from
"narrow") gives the spec's example query. -/
theorem c5_witness :
    ("broad" : String) ≠ "narrow" ∧
      build_query "TypeError" "unsupported operand" "broad" "bogus" "open" =
        "TypeError status:open" :=
  ⟨by decide, (c5_broad_query "TypeError" "unsupported operand" "broad" "bogus" "open"
    (by decide)).2⟩

/-- C10: the public context manager's default arguments are criteria "broad",
sortby "relevance" and status "any"; neither default is in the allowed sort or
status lists, so the default-built query is the bare exception type name, with
no order clause and no status clause. -/
theorem c10_default_query_is_bare_type_name (etype msg : String) :
    forum_default_criteria = "broad" ∧ forum_default_sortby = "relevance" ∧
      forum_default_status = "any" ∧ forum_default_sortby ∉ _ALLOWED_SORTS ∧
      forum_default_status ∉ _ALLOWED_STATUSES ∧
      build_query etype msg forum_default_criteria forum_default_sortby
        forum_default_status = etype := by
  refine ⟨rfl, rfl, rfl, by decide, by decide, ?_⟩
  simp [build_query, forum_default_criteria, forum_default_sortby, forum_default_status,
    _ALLOWED_SORTS, _ALLOWED_STATUSES]

/-- C9: the public URL of a topic is the forum base URL, then "/t/", then the
decimal string of the topic id, with no other components; the formatted link
of every row embeds exactly this URL. -/
theorem c9_topic_url_derivation (i : Int) :
    topic_url i = "https://discuss.streamlit.io/t/" ++ toString i ∧
      topic_url 42 = "https://discuss.streamlit.io/t/42" ∧
      ∀ t : Topic, format_link t =
        (if t.has_accepted_answer
          then "- [" ++ t.title ++ "](" ++ topic_url t.id ++ ")" ++ " [✅ Solved]"
          else "- [" ++ t.title ++ "](" ++ topic_url t.id ++ ")") :=
  ⟨rfl, rfl, fun _ => rfl⟩

/-- C7 counterexample: `top = -1` is non-positive, yet on an upstream with
four distinct topics the pipeline returns three rows (pandas `head(-1)` drops
only the last row), not zero rows as the claim states. -/
theorem c7_counterexample :
    _get_data "E" "m" (-1) "broad" "latest" "open" (fun _ => upstreamOf expages) 3 =
        some (Sum.inr [exTopic 1, exTopic 2, exTopic 3]) ∧
      [exTopic 1, exTopic 2, exTopic 3] ≠ ([] : List Topic) := by decide

/-- C7 amended: the truncation `result.head(top)` yields zero rows when
`top = 0`, but for negative `top` it yields all rows except the last `|top|`
rows (pandas `head` semantics), which can be non-empty. -/
theorem c7_nonpositive_top_head (rows : List Topic) (top : Int) :
    (top = 0 → pd_head top rows = []) ∧
      (top < 0 → pd_head top rows = rows.take (rows.length - top.natAbs)) := by
  constructor
  · intro h; subst h; simp [pd_head]
  · intro h; rw [pd_head, if_neg (by omega)]

/-- C7 witness: at `top = -1` on a two-row table, `head` keeps the first row,
a non-empty result. -/
theorem c7_witness :
    (-1 : Int) < 0 ∧ pd_head (-1) [exTopic 1, exTopic 2] = [exTopic 1] := by
  refine ⟨by decide, ?_⟩
  have h := (c7_nonpositive_top_head [exTopic 1, exTopic 2] (-1)).2 (by decide)
  rw [h]
  decide

/-- C8: any exception raised inside `_fetch_all_topic_pages` (network failure,
malformed JSON, or any other error) is caught at the `_get_data` boundary and
converted into the "No topics found" outcome rather than propagated; when the
fetch succeeds, `_get_data` returns its rows truncated to `top`.  The
query-building step is a total function and contributes no failure. -/
theorem c8_failures_absorbed (etype msg : String) (top : Int)
    (criteria sortby status : String)
    (up : String → Nat → Except String (Option (List Topic))) (fuel : Nat) :
    (∀ e, _fetch_all_topic_pages (up (build_query etype msg criteria sortby status)) fuel =
        some (Except.error e) →
      _get_data etype msg top criteria sortby status up fuel = some (Sum.inl noTopicsFound)) ∧
      ∀ rows, _fetch_all_topic_pages (up (build_query etype msg criteria sortby status)) fuel =
          some (Except.ok rows) →
        _get_data etype msg top criteria sortby status up fuel =
          some (Sum.inr (pd_head top rows)) := by
  constructor
  · intro e he; simp [_get_data, he]
  · intro rows hr; simp [_get_data, hr]

/-- C8 witness: a network failure on the very first fetch is absorbed and
becomes the "No topics found" outcome. -/
theorem c8_witness :
    _get_data "ValueError" "boom" 5 "broad" "latest" "open"
        (fun _ _ => Except.error "ConnectionError") 1 = some (Sum.inl noTopicsFound) :=
  (c8_failures_absorbed "ValueError" "boom" 5 "broad" "latest" "open"
    (fun _ _ => Except.error "ConnectionError") 1).1 "ConnectionError" (by decide)

/-- C6 counterexample: when already the first page lacks a "topics" key,
`_fetch_all_topic_pages` does not complete normally with zero rows: the
`pd.concat` of the empty page list raises
`ValueError: No objects to concatenate`. -/
theorem c6_counterexample :
    _fetch_all_topic_pages (fun _ => Except.ok none) 1 =
        some (Except.error "ValueError: No objects to concatenate") ∧
      _fetch_all_topic_pages (fun _ => Except.ok none) 1 ≠
        some (Except.ok []) := by decide

/-- C6 amended: if the first page lacks a "topics" key, the pagination loop
stops at once with an empty page list, `pd.concat` raises, and the `_get_data`
boundary converts the raised error into the "No topics found" outcome; no
empty ResultSet is returned. -/
theorem c6_first_page_without_topics (up : Nat → Except String (Option (List Topic)))
    (fuel : Nat) (h0 : up 0 = Except.ok none) (hfuel : 0 < fuel)
    (etype msg : String) (top : Int) (criteria sortby status : String) :
    _fetch_all_topic_pages up fuel =
        some (Except.error "ValueError: No objects to concatenate") ∧
      _get_data etype msg top criteria sortby status (fun _ => up) fuel =
        some (Sum.inl noTopicsFound) := by
  obtain ⟨f, rfl⟩ : ∃ f, fuel = f + 1 := ⟨fuel - 1, by omega⟩
  have hloop : _fetch_all_topic_pages_loop up (f + 1) 0 = some (Except.ok []) := by
    simp [_fetch_all_topic_pages_loop, _fetch_search, h0]
  have hfa : _fetch_all_topic_pages up (f + 1) =
      some (Except.error "ValueError: No objects to concatenate") := by
    simp [_fetch_all_topic_pages, hloop, pd_concat]
  exact ⟨hfa, by simp [_get_data, hfa]⟩

/-- C6 witness: instantiating at an upstream whose every page lacks "topics"
shows the raised `pd.concat` error and its conversion to the "No topics
found" outcome. -/
theorem c6_witness :
    _fetch_all_topic_pages (fun _ => Except.ok none) 2 =
        some (Except.error "ValueError: No objects to concatenate") ∧
      _get_data "KeyError" "k" 5 "broad" "latest" "open"
          (fun _ => fun _ => Except.ok none) 2 = some (Sum.inl noTopicsFound) :=
  c6_first_page_without_topics (fun _ => Except.ok none) 2 rfl (by decide)
    "KeyError" "k" 5 "broad" "latest" "open"

/-- Helper: a run of the pagination loop from page `i` with `k - i` good pages
ahead and page `k` lacking "topics" collects exactly the batches of pages
`i, i+1, ..., k-1`, in order, for any sufficient fuel. -/
theorem loop_run (up : Nat → Except String (Option (List Topic))) (k : Nat)
    (hk : up k = Except.ok none)
    (hgood : ∀ j, j < k → ∃ ts, ts ≠ [] ∧ up j = Except.ok (some ts)) :
    ∀ d i fuel, i + d = k → d < fuel →
      _fetch_all_topic_pages_loop up fuel i =
        some (Except.ok ((List.range' i d).map fun j => pageData (up j))) := by
  intro d
  induction d with
  | zero =>
    intro i fuel hik hf
    obtain ⟨f, rfl⟩ : ∃ f, fuel = f + 1 := ⟨fuel - 1, by omega⟩
    have hi : i = k := by omega
    subst hi
    simp [_fetch_all_topic_pages_loop, _fetch_search, hk]
  | succ d ih =>
    intro i fuel hik hf
    obtain ⟨f, rfl⟩ : ∃ f, fuel = f + 1 := ⟨fuel - 1, by omega⟩
    obtain ⟨ts, hne, hup⟩ := hgood i (by omega)
    have hfs : _fetch_search (up i) = Except.ok (some ts) := by
      simp [_fetch_search, hup, hne]
    have hrec := ih (i + 1) f (by omega) (by omega)
    have hstep : _fetch_all_topic_pages_loop up (f + 1) i =
        match _fetch_search (up i) with
        | Except.error e => some (Except.error e)
        | Except.ok none => some (Except.ok [])
        | Except.ok (some batch) =>
          match _fetch_all_topic_pages_loop up f (i + 1) with
          | none => none
          | some (Except.error e) => some (Except.error e)
          | some (Except.ok rest) => some (Except.ok (batch :: rest)) := rfl
    rw [hstep, hfs, hrec, List.range'_succ]
    simp [pageData, hup]

/-- Helper: mapping page extraction over `range'` recovers the page list a
finite upstream was built from. -/
theorem range'_map_pageData (ps : List (List Topic)) :
    ∀ (total : List (List Topic)) (s : Nat), (∀ n, total[s + n]? = ps[n]?) →
      (List.range' s ps.length).map (fun j => pageData (Except.ok total[j]?)) = ps := by
  induction ps with
  | nil => intro total s _; simp
  | cons p rest ih =>
    intro total s h
    rw [List.length_cons, List.range'_succ, List.map_cons]
    congr 1
    · have h0 := h 0
      rw [Nat.add_zero] at h0
      simp only [List.getElem?_cons_zero] at h0
      simp [pageData, h0]
    · refine ih total (s + 1) ?_
      intro n
      have hidx : s + 1 + n = s + (n + 1) := by omega
      rw [hidx, h (n + 1), List.getElem?_cons_succ]

/-- Helper: on a finite upstream with at least one page, all pages non-empty,
`_fetch_all_topic_pages` terminates and returns the de-duplicated
concatenation of the pages. -/
theorem fetch_all_upstreamOf (ps : List (List Topic)) (hps : ps ≠ [])
    (hne : ∀ p ∈ ps, p ≠ []) (fuel : Nat) (hfuel : ps.length < fuel) :
    _fetch_all_topic_pages (upstreamOf ps) fuel =
      some (Except.ok (_get_search_results_as_table ps.flatten)) := by
  have hk : upstreamOf ps ps.length = Except.ok none := by
    simp [upstreamOf]
  have hgood : ∀ j, j < ps.length →
      ∃ ts, ts ≠ [] ∧ upstreamOf ps j = Except.ok (some ts) := by
    intro j hj
    refine ⟨ps[j], hne _ (ps.getElem_mem hj), ?_⟩
    simp [upstreamOf, List.getElem?_eq_getElem hj]
  have hloop := loop_run (upstreamOf ps) ps.length hk hgood ps.length 0 fuel
    (by omega) hfuel
  have hmap : ((List.range' 0 ps.length).map fun j => pageData (upstreamOf ps j)) = ps := by
    have := range'_map_pageData ps ps 0 (fun n => by rw [Nat.zero_add])
    simpa [upstreamOf] using this
  rw [hmap] at hloop
  simp [_fetch_all_topic_pages, hloop, pd_concat, hps]

/-- Helper: the de-duplication recursion returns a sublist of its input
(order preserved, no re-sorting). -/
theorem drop_duplicates_sublist (seen : List Int) (l : List Topic) :
    List.Sublist (drop_duplicates_by_id_aux seen l) l := by
  induction l generalizing seen with
  | nil => simp [drop_duplicates_by_id_aux]
  | cons t ts ih =>
    rw [drop_duplicates_by_id_aux]
    by_cases h : t.id ∈ seen
    · rw [if_pos h]; exact List.Sublist.cons t (ih seen)
    · rw [if_neg h]; exact List.Sublist.cons₂ t (ih (t.id :: seen))

/-- Helper: the ids of the de-duplicated rows are pairwise distinct and avoid
the seen set. -/
theorem drop_duplicates_ids_nodup (l : List Topic) (seen : List Int) :
    ((drop_duplicates_by_id_aux seen l).map Topic.id).Nodup ∧
      ∀ x ∈ (drop_duplicates_by_id_aux seen l).map Topic.id, x ∉ seen := by
  induction l generalizing seen with
  | nil => simp [drop_duplicates_by_id_aux]
  | cons t ts ih =>
    rw [drop_duplicates_by_id_aux]
    by_cases h : t.id ∈ seen
    · rw [if_pos h]; exact ih seen
    · rw [if_neg h]
      obtain ⟨hnd, hs⟩ := ih (t.id :: seen)
      constructor
      · simp only [List.map_cons, List.nodup_cons]
        exact ⟨fun hc => (hs _ hc) (List.mem_cons_self _ _), hnd⟩
      · intro x hx
        simp only [List.map_cons, List.mem_cons] at hx
        rcases hx with rfl | hx
        · exact h
        · exact fun hxs => (hs x hx) (List.mem_cons_of_mem _ hxs)

/-- Helper: every id of the input survives de-duplication (or was already
seen). -/
theorem drop_duplicates_complete (l : List Topic) (seen : List Int) :
    ∀ t ∈ l, t.id ∈ seen ∨ t.id ∈ (drop_duplicates_by_id_aux seen l).map Topic.id := by
  induction l generalizing seen with
  | nil => simp
  | cons a ts ih =>
    intro t ht
    rw [drop_duplicates_by_id_aux]
    rcases List.mem_cons.mp ht with rfl | ht'
    · by_cases h : t.id ∈ seen
      · exact Or.inl h
      · rw [if_neg h]; right; simp
    · by_cases h : a.id ∈ seen
      · rw [if_pos h]; exact ih seen t ht'
      · rw [if_neg h]
        rcases ih (a.id :: seen) t ht' with hin | hin
        · rcases List.mem_cons.mp hin with heq | hseen
          · right; simp [heq]
          · exact Or.inl hseen
        · right; simp [hin]

/-- Helper: every row kept by de-duplication is the first row of the input
bearing its id. -/
theorem drop_duplicates_first_occurrence (l : List Topic) (seen : List Int) :
    ∀ t ∈ drop_duplicates_by_id_aux seen l,
      t.id ∉ seen ∧ l.find? (fun u => u.id == t.id) = some t := by
  induction l generalizing seen with
  | nil => simp [drop_duplicates_by_id_aux]
  | cons a ts ih =>
    intro t ht
    rw [drop_duplicates_by_id_aux] at ht
    by_cases h : a.id ∈ seen
    · rw [if_pos h] at ht
      obtain ⟨hns, hfind⟩ := ih seen t ht
      have hne : (a.id == t.id) = false :=
        beq_eq_false_iff_ne.mpr (fun he => hns (he ▸ h))
      exact ⟨hns, by simp [List.find?_cons, hne, hfind]⟩
    · rw [if_neg h] at ht
      rcases List.mem_cons.mp ht with rfl | ht'
      · exact ⟨h, by simp [List.find?_cons]⟩
      · obtain ⟨hns, hfind⟩ := ih (a.id :: seen) t ht'
        have hne : a.id ≠ t.id := fun he => hns (by simp [he])
        have hne' : (a.id == t.id) = false := beq_eq_false_iff_ne.mpr hne
        exact ⟨fun hs => hns (List.mem_cons_of_mem _ hs),
          by simp [List.find?_cons, hne', hfind]⟩

/-- Helper: the number of rows kept by de-duplication is the number of ids
outside the seen set. -/
theorem drop_duplicates_length (l : List Topic) (seen : List Int) :
    (drop_duplicates_by_id_aux seen l).length =
      ((l.map Topic.id).toFinset \ seen.toFinset).card := by
  induction l generalizing seen with
  | nil => simp [drop_duplicates_by_id_aux]
  | cons t ts ih =>
    rw [drop_duplicates_by_id_aux]
    by_cases h : t.id ∈ seen
    · rw [if_pos h, ih seen]
      congr 1
      rw [List.map_cons, List.toFinset_cons]
      exact (Finset.insert_sdiff_of_mem _ (List.mem_toFinset.mpr h)).symm
    · rw [if_neg h]
      rw [List.length_cons, ih (t.id :: seen)]
      have hset : ((t.id :: ts.map Topic.id).toFinset) \ seen.toFinset =
          insert t.id ((ts.map Topic.id).toFinset \ ((t.id :: seen).toFinset)) := by
        ext x
        by_cases hx : x = t.id
        · subst hx; simp [h]
        · simp [hx]
      rw [List.map_cons, hset, Finset.card_insert_of_not_mem (by simp)]

/-- Helper: the length of the shaped table is the number of distinct ids in
the concatenated input. -/
theorem table_length_eq_unique_ids (l : List Topic) :
    (_get_search_results_as_table l).length = ((l.map Topic.id).toFinset).card := by
  rw [_get_search_results_as_table, drop_duplicates_length]
  simp

/-- C1 counterexample: for the empty sequence of result pages (the first
fetched page already lacks "topics"), `_fetch_all_topic_pages` does not
produce an aggregated ResultSet at all: it raises the `pd.concat` error, so
in particular no ResultSet with the claimed de-duplication shape exists. -/
theorem c1_counterexample :
    _fetch_all_topic_pages (upstreamOf []) 2 =
        some (Except.error "ValueError: No objects to concatenate") ∧
      _fetch_all_topic_pages (upstreamOf []) 2 ≠
        some (Except.ok (_get_search_results_as_table [])) := by decide

/-- C1 amended: for every non-empty sequence of (non-empty) result pages, the
aggregated ResultSet of `_fetch_all_topic_pages` is the first-occurrence
de-duplication of the page concatenation: it is a sublist of the concatenation
(no re-sorting), its ids are pairwise distinct, every id of the concatenation
occurs in it, and each kept row is the first row of the concatenation bearing
its id.  (The empty page sequence instead raises, see the counterexample.) -/
theorem c1_dedup_first_occurrence (ps : List (List Topic)) (hps : ps ≠ [])
    (hne : ∀ p ∈ ps, p ≠ []) :
    _fetch_all_topic_pages (upstreamOf ps) (ps.length + 1) =
        some (Except.ok (_get_search_results_as_table ps.flatten)) ∧
      List.Sublist (_get_search_results_as_table ps.flatten) ps.flatten ∧
      ((_get_search_results_as_table ps.flatten).map Topic.id).Nodup ∧
      (∀ t ∈ ps.flatten, t.id ∈ (_get_search_results_as_table ps.flatten).map Topic.id) ∧
      ∀ t ∈ _get_search_results_as_table ps.flatten,
        ps.flatten.find? (fun u => u.id == t.id) = some t := by
  refine ⟨fetch_all_upstreamOf ps hps hne _ (by omega), drop_duplicates_sublist [] _,
    (drop_duplicates_ids_nodup ps.flatten []).1, ?_, ?_⟩
  · intro t ht
    rcases drop_duplicates_complete ps.flatten [] t ht with h | h
    · simp at h
    · exact h
  · intro t ht
    exact (drop_duplicates_first_occurrence ps.flatten [] t ht).2

/-- C1 witness: on the spec's worked example (page 0 with ids 1,2,3, page 1
with ids 3,4, page 2 lacking "topics") the pipeline yields the rows with ids
1,2,3,4 in that order, keeping the page-0 row for id 3, and `head(10)` leaves
them untouched. -/
theorem c1_witness :
    _fetch_all_topic_pages (upstreamOf expages) 3 =
        some (Except.ok [exTopic 1, exTopic 2, exTopic 3, exTopic 4]) ∧
      pd_head 10 [exTopic 1, exTopic 2, exTopic 3, exTopic 4] =
        [exTopic 1, exTopic 2, exTopic 3, exTopic 4] := by
  have h := (c1_dedup_first_occurrence expages (by decide) (by decide)).1
  have e : _get_search_results_as_table expages.flatten =
      [exTopic 1, exTopic 2, exTopic 3, exTopic 4] := by decide
  rw [e] at h
  exact ⟨h, by decide⟩

/-- C3 counterexample: on the upstream dataset with no pages at all and
`top = 5`, the pipeline does not return a ResultSet of length
`min(5, 0) = 0`: the raised `pd.concat` error is converted into the
"No topics found" outcome instead. -/
theorem c3_counterexample :
    _get_data "ValueError" "boom" 5 "broad" "latest" "open"
        (fun _ => upstreamOf []) 1 = some (Sum.inl noTopicsFound) ∧
      _get_data "ValueError" "boom" 5 "broad" "latest" "open"
          (fun _ => upstreamOf []) 1 ≠ some (Sum.inr []) := by decide

/-- C3 amended: for every upstream dataset with at least one page (pages being
non-empty, as the upstream contract has it) and every positive `top`, the
pipeline returns a ResultSet whose length is the minimum of `top` and the
number of unique topic ids across all fetched pages; in particular it is
never larger than `top`. -/
theorem c3_length_min (ps : List (List Topic)) (top : Int)
    (etype msg criteria sortby status : String)
    (hps : ps ≠ []) (hne : ∀ p ∈ ps, p ≠ []) (htop : 0 < top) :
    _get_data etype msg top criteria sortby status (fun _ => upstreamOf ps)
        (ps.length + 1) =
        some (Sum.inr (pd_head top (_get_search_results_as_table ps.flatten))) ∧
      (pd_head top (_get_search_results_as_table ps.flatten)).length =
        min top.toNat (((ps.flatten.map Topic.id).toFinset).card) ∧
      (pd_head top (_get_search_results_as_table ps.flatten)).length ≤ top.toNat := by
  have hfa := fetch_all_upstreamOf ps hps hne (ps.length + 1) (by omega)
  refine ⟨by simp [_get_data, hfa], ?_, ?_⟩
  · rw [pd_head, if_pos (by omega), List.length_take, table_length_eq_unique_ids]
  · rw [pd_head, if_pos (by omega), List.length_take]
    exact Nat.min_le_left _ _

/-- C3 witness: on the worked example dataset (unique ids 1,2,3,4) with
`top = 2` the pipeline returns exactly the first two rows, and
`2 = min(2, 4)`. -/
theorem c3_witness :
    _get_data "E" "m" 2 "broad" "latest" "open" (fun _ => upstreamOf expages) 3 =
        some (Sum.inr [exTopic 1, exTopic 2]) ∧
      ([exTopic 1, exTopic 2] : List Topic).length =
        min (Int.toNat 2) (((expages.flatten.map Topic.id).toFinset).card) := by
  have h := c3_length_min expages 2 "E" "m" "broad" "latest" "open"
    (by decide) (by decide) (by decide)
  have e : pd_head 2 (_get_search_results_as_table expages.flatten) =
      [exTopic 1, exTopic 2] := by decide
  obtain ⟨h1, h2, -⟩ := h
  rw [e] at h1 h2
  exact ⟨h1, h2⟩

/-- C2: against every well-behaved upstream (each page either has a non-empty
"topics" array or lacks the key, and some page lacks it), the pagination loop
terminates: there is a first page `k` lacking "topics", pages `0, 1, ..., k-1`
all carry topics, and for every sufficient fuel bound the loop returns exactly
the batches of pages `0` through `k-1` in order — it never runs forever. -/
theorem c2_termination (up : Nat → Except String (Option (List Topic))) (N : Nat)
    (hN : up N = Except.ok none)
    (hwell : ∀ j, up j = Except.ok none ∨ ∃ ts, ts ≠ [] ∧ up j = Except.ok (some ts)) :
    ∃ k, k ≤ N ∧ up k = Except.ok none ∧
      (∀ j, j < k → ∃ ts, ts ≠ [] ∧ up j = Except.ok (some ts)) ∧
      ∀ fuel, k < fuel →
        _fetch_all_topic_pages_loop up fuel 0 =
          some (Except.ok ((List.range' 0 k).map fun j => pageData (up j))) := by
  classical
  have hex : ∃ n, up n = Except.ok none := ⟨N, hN⟩
  have hgood : ∀ j, j < Nat.find hex → ∃ ts, ts ≠ [] ∧ up j = Except.ok (some ts) := by
    intro j hj
    rcases hwell j with h | h
    · exact absurd h (Nat.find_min hex hj)
    · exact h
  refine ⟨Nat.find hex, Nat.find_min' hex hN, Nat.find_spec hex, hgood, ?_⟩
  intro fuel hf
  exact loop_run up (Nat.find hex) (Nat.find_spec hex) hgood (Nat.find hex) 0 fuel
    (by omega) hf

/-- C2 witness: on a two-page upstream the loop stops at page 2 (the first
page lacking "topics") and collects pages 0 and 1 in order. -/
theorem c2_witness :
    _fetch_all_topic_pages_loop c2up 3 0 = some (Except.ok [[exTopic 0], [exTopic 1]]) := by
  obtain ⟨k, hkN, hk, -, hloop⟩ := c2_termination c2up 2 rfl
    (fun j => by
      by_cases h : j < 2
      · exact Or.inr ⟨[exTopic j], by simp, by simp [c2up, h]⟩
      · exact Or.inl (by simp [c2up, h]))
  have hk2 : k = 2 := by
    rcases Nat.lt_or_ge k 2 with h | h
    · have h1 : c2up k = Except.ok (some [exTopic k]) := by simp [c2up, h]
      rw [hk] at h1
      simp at h1
    · omega
  subst hk2
  rw [hloop 3 (by omega)]
  decide
